import Mathlib

/-!
Verification of the personal-dashboard script (src/script.js) against its
natural-language specification. The JavaScript is shallowly embedded: each
DOM-mutating routine becomes a pure Lean function from the outcome of its
external calls (HTTP fetch, Firestore, gapi) to a record of the DOM writes
and log events it performs. JavaScript truthiness of strings and of
optional fields is modelled explicitly (`jsOrString`, `jsOrOption`), and
the JavaScript `String.prototype.trim` is modelled by `jsTrim` over the
ECMAScript whitespace set.
-/

set_option autoImplicit false

/-- Truthiness-based `x || y` for a JavaScript expression that is a string
or `undefined`: the empty string and `undefined` are falsy. -/
def jsOrString (x : Option String) (y : String) : String :=
  match x with
  | some s => if s = "" then y else s
  | none => y

/-- Truthiness-based `x || y` where both operands are a string or
`undefined` (modelled as `Option String`). -/
def jsOrOption (x y : Option String) : Option String :=
  match x with
  | some s => if s = "" then y else some s
  | none => y

/-- ECMAScript WhiteSpace and LineTerminator characters, the set removed by
`String.prototype.trim`. -/
def jsWhitespace (c : Char) : Bool :=
  c = ' ' || c = '\t' || c = '\n' || c = '\r' ||
  c = '\x0b' || c = '\x0c' || c = '\u00a0' || c = '\ufeff' ||
  c = '\u1680' || (('\u2000' ≤ c) && (c ≤ '\u200a')) ||
  c = '\u2028' || c = '\u2029' || c = '\u202f' || c = '\u205f' || c = '\u3000'

/-- Model of JavaScript `String.prototype.trim`: drop leading and trailing
ECMAScript whitespace. -/
def jsTrim (s : String) : String :=
  ⟨((s.data.dropWhile jsWhitespace).reverse.dropWhile jsWhitespace).reverse⟩

/-! ## Weather code interpretation (script.js lines 65 to 104) -/

/-- The fixed WMO weather-code table, `weatherCodeMap` in script.js lines
65 to 94, embedded as an association list in source order. -/
def weatherCodeMap : List (Int × String) :=
  [(0, "Clear sky"),
   (1, "Mainly clear"),
   (2, "Partly cloudy"),
   (3, "Overcast"),
   (45, "Fog"),
   (48, "Depositing rime fog"),
   (51, "Light drizzle"),
   (53, "Moderate drizzle"),
   (55, "Dense drizzle"),
   (56, "Light freezing drizzle"),
   (57, "Dense freezing drizzle"),
   (61, "Slight rain"),
   (63, "Moderate rain"),
   (65, "Heavy rain"),
   (66, "Light freezing rain"),
   (67, "Heavy freezing rain"),
   (71, "Slight snowfall"),
   (73, "Moderate snowfall"),
   (75, "Heavy snowfall"),
   (77, "Snow grains"),
   (80, "Slight rain showers"),
   (81, "Moderate rain showers"),
   (82, "Violent rain showers"),
   (85, "Slight snow showers"),
   (86, "Heavy snow showers"),
   (95, "Thunderstorm"),
   (96, "Thunderstorm with slight hail"),
   (99, "Thunderstorm with heavy hail")]

/-- script.js lines 102 to 104: `weatherCodeMap[code] || 'Unknown conditions'`.
Property lookup on the object yields the mapped string or `undefined`;
`||` then applies JavaScript truthiness. -/
def interpretWeatherCode (code : Int) : String :=
  jsOrString (weatherCodeMap.lookup code) "Unknown conditions"

/-! ## Weather fetcher (script.js lines 115 to 138) -/

/-- The `data.current_weather` object: JSON fields `temperature` and
`weathercode`. The temperature is only ever interpolated into a template
literal, never computed with, so it is embedded as the decimal string the
JavaScript number renders to. -/
structure CurrentWeatherObj where
  temperature : String
  weathercode : Int
deriving DecidableEq

/-- The parsed weather response body; `current_weather` may be absent. -/
structure WeatherPayload where
  current_weather : Option CurrentWeatherObj
deriving DecidableEq

/-- Outcome of the `fetch` + `response.json()` pair inside `fetchWeather`:
a network or parsing rejection, a response with `ok` false, or a parsed
payload. -/
inductive FetchOutcome where
  | netError (msg : String)
  | httpNotOk
  | success (data : WeatherPayload)
deriving DecidableEq

/-- The DOM writes and console activity one `fetchWeather` call performs:
the sequence of assignments to the temperature slot and to the description
slot, and whether `console.error` was called. -/
structure WeatherResult where
  tempWrites : List String
  descWrites : List String
  errorLogged : Bool
deriving DecidableEq

/-- The `try` block of `fetchWeather` (script.js lines 116 to 132): a
rejected fetch or parse re-raises; `!response.ok` throws
"Weather request failed"; an absent `current_weather` renders
"No data available" with an empty description; otherwise the temperature
is interpolated with the `°C` suffix and the code is interpreted. -/
def fetchWeatherTry : FetchOutcome → Except String WeatherResult
  | .netError msg => .error msg
  | .httpNotOk => .error "Weather request failed"
  | .success data =>
    match data.current_weather with
    | none => .ok ⟨["No data available"], [""], false⟩
    | some cw => .ok ⟨[cw.temperature ++ "°C"], [interpretWeatherCode cw.weathercode], false⟩

/-- `fetchWeather` (script.js lines 115 to 138): the `catch` block logs the
error and writes "Error fetching weather" and the empty string. The
function always returns a result, so no exception reaches the caller. -/
def fetchWeather (o : FetchOutcome) : WeatherResult :=
  match fetchWeatherTry o with
  | .ok r => r
  | .error _ => ⟨["Error fetching weather"], [""], true⟩

/-! ## Notes (script.js lines 46 to 55 and 149 to 198) -/

/-- script.js lines 46 to 55: Firebase initialization wrapped in try/catch.
Returns the `db` handle (left undefined on failure) and whether
`console.warn` ran. -/
def initFirebase (r : Except String Unit) : Option Unit × Bool :=
  match r with
  | .ok _ => (some (), false)
  | .error _ => (none, true)

/-- A Firestore document in the notes snapshot: opaque id and `text` field. -/
structure NoteDoc where
  id : String
  text : String
deriving DecidableEq

/-- One `li` produced by `renderNotes`: the displayed text and the document
id its Delete button passes to `deleteDoc`. -/
structure RenderedNote where
  text : String
  deleteId : String
deriving DecidableEq

/-- `renderNotes` (script.js lines 149 to 167): clears the list element and
appends, for each snapshot document in delivered order, an item showing
`docSnap.data().text` whose Delete button deletes `docSnap.id`. The output
list is the full new DOM state, built from the snapshot alone. -/
def renderNotes (snapshot : List NoteDoc) : List RenderedNote :=
  snapshot.map (fun d => ⟨d.text, d.id⟩)

/-- The Delete button handler (script.js lines 157 to 163): `deleteDoc`
wrapped in try/catch; returns whether `console.error` ran. Total, so no
exception escapes the handler. -/
def deleteNoteClick (r : Except String Unit) : Bool :=
  match r with
  | .ok _ => false
  | .error _ => true

/-- Effects of one save-note click (script.js lines 187 to 197): the bodies
of the `addDoc` create requests issued (each the `text` value of a
`{ text }` body), the final value of the input field, and whether
`console.error` ran. -/
structure NoteSubmitResult where
  createRequests : List String
  inputValue : String
  errorLogged : Bool
deriving DecidableEq

/-- The save-note click handler: trims the input; `if (!text) return;`
(the empty string is the only falsy string); otherwise one `addDoc` with
body `{ text }`, clearing the input only after the create resolves, and
logging on rejection with the input left as it was. -/
def saveNoteClick (input : String) (addDocSucceeds : Bool) : NoteSubmitResult :=
  let text := jsTrim input
  if text = "" then ⟨[], input, false⟩
  else if addDocSucceeds then ⟨[text], "", false⟩
  else ⟨[text], input, true⟩

/-- What `initNotes` (script.js lines 173 to 198) does at page load:
whether it set `saveButton.disabled = true`, the label it wrote (if any),
whether it registered the `onSnapshot` subscription, and whether it
attached the save-note click handler. -/
structure NotesInitResult where
  saveDisabled : Bool
  saveLabel : Option String
  subscribed : Bool
  handlerAttached : Bool
deriving DecidableEq

/-- `initNotes`: with `db` undefined it disables the save button, relabels
it "Notes unavailable" and returns before the subscription and the click
handler are set up; note create requests are issued only by that handler
and delete requests only by items the subscription renders, so none can be
issued in the disabled state. -/
def initNotes (db : Option Unit) : NotesInitResult :=
  match db with
  | none => ⟨true, some "Notes unavailable", false, false⟩
  | some _ => ⟨false, none, true, true⟩

/-! ## Calendar (script.js lines 220 to 310) -/

/-- The `event.start` object: `dateTime` (timed events) and `date`
(all-day events), either possibly absent. -/
structure EventStart where
  dateTime : Option String
  date : Option String
deriving DecidableEq

/-- A calendar event as consumed by `listUpcomingEvents`. -/
structure CalendarEvent where
  summary : String
  start : EventStart
deriving DecidableEq

/-- script.js line 296 to 298: `event.start.dateTime || event.start.date`
is passed through `new Date(...).toLocaleString()` (modelled by the
environment-supplied formatter `fmt`) and joined with the summary by an
em dash. -/
def renderEvent (fmt : Option String → String) (e : CalendarEvent) : String :=
  fmt (jsOrOption e.start.dateTime e.start.date) ++ " — " ++ e.summary

/-- Outcome of the `gapi.client.calendar.events.list` call: a rejected
request, or a response whose `result.items` field may be absent. -/
inductive ListResponse where
  | failure (err : String)
  | success (items : Option (List CalendarEvent))
deriving DecidableEq

/-- Final state of the events list element after one `listUpcomingEvents`
call, plus whether `console.error` ran. -/
structure CalendarRender where
  eventsList : List String
  errorLogged : Bool
deriving DecidableEq

/-- The static request parameters of script.js lines 282 to 289 (`timeMin`,
the current instant, is environment data and not embedded). -/
structure ListParams where
  calendarId : String
  showDeleted : Bool
  singleEvents : Bool
  maxResults : Nat
  orderBy : String
deriving DecidableEq

/-- The literal argument of `gapi.client.calendar.events.list`. -/
def listRequestParams : ListParams :=
  ⟨"primary", false, true, 10, "startTime"⟩

/-- `listUpcomingEvents` (script.js lines 280 to 310), given the request
outcome and the prior contents of the events element. On rejection the
`catch` logs and the list is untouched. On a response, `innerHTML` is
cleared first; if `items` is absent, reading `events.length` then throws a
TypeError which the `catch` logs, leaving the cleared list; with items
present, zero events render the single placeholder and a nonempty list
renders each event in order. -/
def listUpcomingEvents (fmt : Option String → String) (resp : ListResponse)
    (prev : List String) : CalendarRender :=
  match resp with
  | .failure _ => ⟨prev, true⟩
  | .success items =>
    match items with
    | none => ⟨[], true⟩
    | some events =>
      if events.length > 0 then ⟨events.map (renderEvent fmt), false⟩
      else ⟨["No upcoming events found."], false⟩

/-- `initClient` (script.js lines 220 to 240): on `gapi.client.init`
resolution the sign-in listener and the two button handlers are attached;
on rejection the `catch` logs. Total, so nothing escapes. -/
structure InitClientResult where
  listenerRegistered : Bool
  handlersAttached : Bool
  errorLogged : Bool
deriving DecidableEq

/-- Model of `initClient` over the outcome of `gapi.client.init`. -/
def initClient (r : Except String Unit) : InitClientResult :=
  match r with
  | .ok _ => ⟨true, true, false⟩
  | .error _ => ⟨false, false, true⟩

/-- `handleAuthClick` (script.js lines 265 to 267): it calls
`gapi.auth2.getAuthInstance().signIn()` and attaches no catch, so the
outcome of the sign-in call is exactly the outcome of the handler. -/
def handleAuthClick (signInResult : Except String Unit) : Except String Unit :=
  signInResult

/-- `handleSignoutClick` (script.js lines 272 to 274): it calls
`signOut()` and attaches no catch, so the outcome of the sign-out call is
exactly the outcome of the handler. -/
def handleSignoutClick (signOutResult : Except String Unit) : Except String Unit :=
  signOutResult

/-! ## Helper lemmas -/

/-- Lookup in an association list misses exactly when the key is absent
from the key column. -/
theorem lookup_eq_none_of_not_mem_keys (l : List (Int × String)) (c : Int)
    (h : c ∉ l.map Prod.fst) : l.lookup c = none := by
  induction l with
  | nil => rfl
  | cons p t ih =>
    simp only [List.map_cons, List.mem_cons, not_or] at h
    have hne : (c == p.1) = false := beq_eq_false_iff_ne.mpr h.1
    simp [List.lookup, hne, ih h.2]

/-- `getD` on a mapped list at an in-range index is the function applied to
the corresponding source element. -/
theorem getD_map_of_lt {α β : Type} (l : List α) (f : α → β) (i : Nat)
    (h : i < l.length) (d : β) :
    (l.map f).getD i d = f (l.get ⟨i, h⟩) := by
  induction l generalizing i with
  | nil => exact absurd h (by simp)
  | cons a t ih =>
    cases i with
    | zero => rfl
    | succ j => exact ih j (by simpa using h)

/-! ## Claims -/

/-- Claim C1: for every integer code that is a key of the fixed
weather-code table, `interpretWeatherCode` returns exactly the string the
table maps it to; for every integer code not among the keys, and in
particular for 13, -1 and 9999, it returns "Unknown conditions". The
function is a total Lean function, so it is pure with no failure mode. -/
theorem interpretWeatherCode_spec :
    (∀ c s, (c, s) ∈ weatherCodeMap → interpretWeatherCode c = s) ∧
    (∀ c : Int, c ∉ weatherCodeMap.map Prod.fst →
      interpretWeatherCode c = "Unknown conditions") ∧
    interpretWeatherCode 13 = "Unknown conditions" ∧
    interpretWeatherCode (-1) = "Unknown conditions" ∧
    interpretWeatherCode 9999 = "Unknown conditions" := by
  refine ⟨?_, ?_, by decide, by decide, by decide⟩
  · intro c s h
    fin_cases h <;> decide
  · intro c h
    simp [interpretWeatherCode, jsOrString, lookup_eq_none_of_not_mem_keys _ _ h]

/-- Witness for C1 at concrete inputs: code 0 is a key mapped to
"Clear sky", and 100 is not a key. -/
theorem interpretWeatherCode_spec_witness :
    interpretWeatherCode 0 = "Clear sky" ∧
    interpretWeatherCode 100 = "Unknown conditions" :=
  ⟨interpretWeatherCode_spec.1 0 "Clear sky" (by decide),
   interpretWeatherCode_spec.2.1 100 (by decide)⟩

/-- Claim C2: for every payload that contains the current-conditions
object, `fetchWeather` writes the temperature slot with the payload
temperature followed by the `°C` suffix and the description slot with the
interpretation of the weather code; in particular temperature 21.4 with
code 3 renders "21.4°C" and "Overcast". -/
theorem fetchWeather_success_renders :
    (∀ (t : String) (c : Int),
      fetchWeather (.success ⟨some ⟨t, c⟩⟩) =
        ⟨[t ++ "°C"], [interpretWeatherCode c], false⟩) ∧
    fetchWeather (.success ⟨some ⟨"21.4", 3⟩⟩) = ⟨["21.4°C"], ["Overcast"], false⟩ := by
  exact ⟨fun t c => rfl, by decide⟩

/-- Claim C3: a non-success HTTP status and a network or parsing rejection
both make `fetchWeather` write "Error fetching weather" to the temperature
slot and the empty string to the description slot, with the error logged;
`fetchWeather` is a total function into `WeatherResult`, so no exception
propagates to its caller. -/
theorem fetchWeather_failure_renders :
    (∀ msg : String, fetchWeather (.netError msg) =
        ⟨["Error fetching weather"], [""], true⟩) ∧
    fetchWeather .httpNotOk = ⟨["Error fetching weather"], [""], true⟩ := by
  exact ⟨fun msg => rfl, rfl⟩

/-- Claim C10: on every path of `fetchWeather` — success, absent
current-conditions object, non-success HTTP status, and thrown exception —
exactly one write is issued to the temperature slot and exactly one to the
description slot, so after any completed fetch neither slot retains its
prior content. -/
theorem fetchWeather_writes_once (o : FetchOutcome) :
    (fetchWeather o).tempWrites.length = 1 ∧
    (fetchWeather o).descWrites.length = 1 := by
  cases o with
  | netError msg => exact ⟨rfl, rfl⟩
  | httpNotOk => exact ⟨rfl, rfl⟩
  | success data =>
    cases data with
    | mk cw => cases cw <;> exact ⟨rfl, rfl⟩

/-- Counterexample to claim C4: on a response whose `items` field is
absent, `listUpcomingEvents` takes the request-failure path, not the
no-data path: `events.length` throws on `undefined`, the `catch` logs an
error, and the cleared list shows no placeholder. -/
theorem listUpcomingEvents_missing_items_counterexample :
    (listUpcomingEvents (fun _ => "") (.success none) ["prior item"]).errorLogged = true ∧
    (listUpcomingEvents (fun _ => "") (.success none) ["prior item"]).eventsList = [] ∧
    (listUpcomingEvents (fun _ => "") (.success none) ["prior item"]).eventsList ≠
      ["No upcoming events found."] := by
  exact ⟨rfl, rfl, by decide⟩

/-- Claim C4 as amended: the weather fetcher treats an absent
current-conditions field as no data, rendering "No data available" with an
empty description slot and no error log; the calendar viewer does not —
with the `items` field absent, the length access throws, the error is
caught and logged by the same handler as a request failure, and the events
list is left cleared with no placeholder. -/
theorem missing_payload_handling (prev : List String)
    (fmt : Option String → String) :
    fetchWeather (.success ⟨none⟩) = ⟨["No data available"], [""], false⟩ ∧
    listUpcomingEvents fmt (.success none) prev = ⟨[], true⟩ := by
  exact ⟨rfl, rfl⟩

/-- Claim C5: if the submitted text trims to empty, no create request is
issued and the input is unchanged; otherwise exactly one create request is
issued with body text the trimmed input, and the input is cleared exactly
when the create succeeds — on failure the error is logged and the input
keeps its value. Submitting "Buy milk" issues exactly one create with body
text "Buy milk". -/
theorem saveNoteClick_spec (input : String) (ok : Bool) :
    (jsTrim input = "" → saveNoteClick input ok = ⟨[], input, false⟩) ∧
    (jsTrim input ≠ "" →
      (saveNoteClick input ok).createRequests = [jsTrim input] ∧
      (ok = true → saveNoteClick input ok = ⟨[jsTrim input], "", false⟩) ∧
      (ok = false → saveNoteClick input ok = ⟨[jsTrim input], input, true⟩)) ∧
    saveNoteClick "Buy milk" true = ⟨["Buy milk"], "", false⟩ := by
  refine ⟨fun h => by simp [saveNoteClick, h], fun h => ?_, by decide⟩
  cases ok <;> simp [saveNoteClick, h]

/-- Witness for C5: a whitespace-only input is a no-op with the input
unchanged, and a failing create for "Buy milk" still issues the request
with the trimmed body. -/
theorem saveNoteClick_spec_witness :
    saveNoteClick "   " true = ⟨[], "   ", false⟩ ∧
    (saveNoteClick " Buy milk " false).createRequests = ["Buy milk"] :=
  ⟨(saveNoteClick_spec "   " true).1 (by decide),
   ((saveNoteClick_spec " Buy milk " false).2.1 (by decide)).1⟩

/-- Claim C6: the notes list is a pure function of the delivered snapshot:
the empty snapshot renders the empty list, a snapshot of N documents
renders exactly N items, and the item at each position shows that
position's document text and carries the delete action for exactly that
document's identifier. -/
theorem renderNotes_spec :
    renderNotes [] = [] ∧
    (∀ snapshot : List NoteDoc, (renderNotes snapshot).length = snapshot.length) ∧
    (∀ (snapshot : List NoteDoc) (i : Nat) (h : i < snapshot.length),
      (renderNotes snapshot).getD i ⟨"", ""⟩ =
        ⟨(snapshot.get ⟨i, h⟩).text, (snapshot.get ⟨i, h⟩).id⟩) := by
  refine ⟨rfl, fun snapshot => by simp [renderNotes], ?_⟩
  intro snapshot i h
  exact getD_map_of_lt snapshot _ i h _

/-- Witness for C6 on a concrete two-document snapshot. -/
theorem renderNotes_spec_witness :
    (renderNotes [⟨"id1", "hello"⟩, ⟨"id2", "world"⟩]).getD 1 ⟨"", ""⟩ =
      ⟨"world", "id2"⟩ :=
  renderNotes_spec.2.2 [⟨"id1", "hello"⟩, ⟨"id2", "world"⟩] 1 (by decide)

/-- Counterexample to claim C7: the start instant is chosen by
`dateTime || date`, so a present but empty date-time field is falsy and
the date-only field is used, against the claim that the date-time field is
used whenever present. With the formatter returning the raw string, the
event with `dateTime = ""` and `date = "2025-01-01"` renders from the
date-only field. -/
theorem listUpcomingEvents_empty_dateTime_counterexample :
    (listUpcomingEvents (fun w => w.getD "Invalid Date")
      (.success (some [⟨"Meeting", ⟨some "", some "2025-01-01"⟩⟩])) []).eventsList =
      ["2025-01-01 — Meeting"] ∧
    (listUpcomingEvents (fun w => w.getD "Invalid Date")
      (.success (some [⟨"Meeting", ⟨some "", some "2025-01-01"⟩⟩])) []).eventsList ≠
      [" — Meeting"] := by
  exact ⟨by decide, by decide⟩

/-- Claim C7 as amended: on a successful listing response, zero events
render exactly the one placeholder item "No upcoming events found.";
otherwise each event renders in the order received as the formatted start
joined to the summary by an em dash, where the instant passed to the
formatter is the date-time field when it is present and non-empty (an
empty date-time string is falsy in JavaScript and falls through), and the
date-only field otherwise; the request itself carries `maxResults` 10, so
a response honouring the requested cap renders at most 10 items. -/
theorem listUpcomingEvents_spec (fmt : Option String → String)
    (prev : List String) (events : List CalendarEvent) :
    (listUpcomingEvents fmt (.success (some [])) prev).eventsList =
      ["No upcoming events found."] ∧
    listRequestParams.maxResults = 10 ∧
    (events.length ≤ listRequestParams.maxResults →
      (listUpcomingEvents fmt (.success (some events)) prev).eventsList.length ≤ 10) ∧
    (events ≠ [] →
      (listUpcomingEvents fmt (.success (some events)) prev).eventsList.length =
        events.length ∧
      (∀ (i : Nat) (h : i < events.length),
        ((events.get ⟨i, h⟩).start.dateTime = none ∨
            (events.get ⟨i, h⟩).start.dateTime = some "" →
          (listUpcomingEvents fmt (.success (some events)) prev).eventsList.getD i "" =
            fmt (events.get ⟨i, h⟩).start.date ++ " — " ++ (events.get ⟨i, h⟩).summary) ∧
        (∀ s, (events.get ⟨i, h⟩).start.dateTime = some s → s ≠ "" →
          (listUpcomingEvents fmt (.success (some events)) prev).eventsList.getD i "" =
            fmt (some s) ++ " — " ++ (events.get ⟨i, h⟩).summary))) := by
  refine ⟨rfl, rfl, ?_, ?_⟩
  · intro hle
    by_cases hpos : events.length > 0
    · simpa [listUpcomingEvents, hpos] using hle
    · simp [listUpcomingEvents, hpos]
  · intro hne
    have hpos : events.length > 0 := List.length_pos.mpr hne
    have hres : (listUpcomingEvents fmt (.success (some events)) prev).eventsList =
        events.map (renderEvent fmt) := by
      simp [listUpcomingEvents, hpos]
    refine ⟨by rw [hres]; simp, ?_⟩
    intro i h
    constructor
    · intro hdt
      rw [hres, getD_map_of_lt events _ i h]
      simp only [List.get_eq_getElem] at hdt ⊢
      rcases hdt with hdt | hdt <;> simp [renderEvent, jsOrOption, hdt]
    · intro s hs hsne
      rw [hres, getD_map_of_lt events _ i h]
      simp only [List.get_eq_getElem] at hs ⊢
      simp [renderEvent, jsOrOption, hs, hsne]

/-- Witness for C7 at a concrete one-event response: the cap hypothesis
and the nonemptiness hypothesis are discharged, and the timed event
renders from its non-empty date-time field. -/
theorem listUpcomingEvents_spec_witness :
    (listUpcomingEvents (fun w => w.getD "Invalid Date")
      (.success (some [⟨"Standup", ⟨some "2025-06-01T09:00", some "2025-06-01"⟩⟩]))
      []).eventsList.length ≤ 10 ∧
    (listUpcomingEvents (fun w => w.getD "Invalid Date")
      (.success (some [⟨"Standup", ⟨some "2025-06-01T09:00", some "2025-06-01"⟩⟩]))
      []).eventsList.getD 0 "" = "2025-06-01T09:00 — Standup" :=
  ⟨(listUpcomingEvents_spec (fun w => w.getD "Invalid Date") []
      [⟨"Standup", ⟨some "2025-06-01T09:00", some "2025-06-01"⟩⟩]).2.2.1 (by decide),
   (((listUpcomingEvents_spec (fun w => w.getD "Invalid Date") []
      [⟨"Standup", ⟨some "2025-06-01T09:00", some "2025-06-01"⟩⟩]).2.2.2
        (by decide)).2 0 (by decide)).2 "2025-06-01T09:00" rfl (by decide)⟩

/-- Claim C8: with the store handle undefined after a failed
initialization, `initNotes` disables the save button, relabels it
"Notes unavailable", registers no snapshot subscription, and attaches no
submission handler; since creates are issued only by that handler and
deletes only by items the subscription renders, no note mutation can be
issued in this state. -/
theorem initNotes_disabled_spec :
    initNotes none = ⟨true, some "Notes unavailable", false, false⟩ := rfl

/-- Counterexample to claim C9: the sign-in and sign-out click handlers
attach no catch to the calls they issue, so a rejected sign-in or
sign-out escapes the handler as an error. -/
theorem signin_no_catch_counterexample :
    handleAuthClick (.error "popup closed by user") =
      .error "popup closed by user" ∧
    handleSignoutClick (.error "network unreachable") =
      .error "network unreachable" :=
  ⟨rfl, rfl⟩

/-- Claim C9 as amended: every external call site except sign-in and
sign-out is enclosed in its own catch boundary — the weather fetch, the
store initialization, the note create and delete, the calendar client
initialization and the event listing each absorb and log a failure and
return normally — while the sign-in and sign-out click handlers attach no
catch, so a failure of those two calls escapes the handler unhandled. -/
theorem catch_boundaries_spec (msg input : String)
    (fmt : Option String → String) (prev : List String) :
    (fetchWeather (.netError msg)).errorLogged = true ∧
    initFirebase (.error msg) = (none, true) ∧
    (jsTrim input ≠ "" → (saveNoteClick input false).errorLogged = true) ∧
    deleteNoteClick (.error msg) = true ∧
    (initClient (.error msg)).errorLogged = true ∧
    listUpcomingEvents fmt (.failure msg) prev = ⟨prev, true⟩ ∧
    handleAuthClick (.error msg) = .error msg ∧
    handleSignoutClick (.error msg) = .error msg := by
  refine ⟨rfl, rfl, fun h => ?_, rfl, rfl, rfl, rfl, rfl⟩
  simp [saveNoteClick, h]

/-- Witness for C9 at concrete inputs, discharging the non-empty-input
hypothesis of the note-create conjunct. -/
theorem catch_boundaries_spec_witness :
    (saveNoteClick "note" false).errorLogged = true ∧
    handleAuthClick (.error "denied") = .error "denied" :=
  ⟨(catch_boundaries_spec "denied" "note" (fun _ => "") []).2.2.1 (by decide),
   (catch_boundaries_spec "denied" "note" (fun _ => "") []).2.2.2.2.2.2.1⟩
